import Mathlib

/-
Verification development for the fastapi-web-agent repository.

The development shallowly embeds the content-extraction pipeline of
processing/web_scraper.py (scrape_homepage_content), the API-key check of
utils/security.py (get_api_key), and the empty-content gate of
agent_server.py (analyze_website / conversational_chat).

Python strings are modelled as Lean String values; the helpers below mirror
the exact Python primitives used by the source (str.strip, str.split,
re.findall, re.search, re.sub) including Python's backtracking regex
semantics for the concrete patterns that appear in the source.
-/

/-! ## Python string primitives -/

/-- The character class matched by Python's whitespace stripping and by
the regex class backslash-s, restricted to ASCII (all inputs in the claims
are ASCII). -/
def pySpaceChar (c : Char) : Bool :=
  c == ' ' || c == '\t' || c == '\n' || c == '\r' || c == '\x0b' || c == '\x0c'

/-- Python str.strip with no argument: drop leading and trailing whitespace. -/
def pyStrip (s : String) : String :=
  ⟨((s.data.dropWhile pySpaceChar).reverse.dropWhile pySpaceChar).reverse⟩

/-- Python str.split with an explicit single-space separator: splits at every
space, keeping empty fields (so "a  b".split gives three fields). -/
def splitSpaceAux : List Char → List (List Char)
  | [] => [[]]
  | c :: rest =>
    let r := splitSpaceAux rest
    if c == ' ' then [] :: r
    else
      match r with
      | h :: t => (c :: h) :: t
      | [] => [[c]]

def pySplitSpace (s : String) : List String := (splitSpaceAux s.data).map String.mk

/-- Python str.startswith. -/
def strStarts (pre s : String) : Bool := pre.data.isPrefixOf s.data

/-- Case-insensitive substring test: whether needle occurs inside hay.
This models a search with an re.I-compiled pattern made of plain letters,
as used for the meta-description name and the class attribute heuristics. -/
def isPrefixCI : List Char → List Char → Bool
  | [], _ => true
  | _ :: _, [] => false
  | c :: cs, x :: xs => c.toLower == x.toLower && isPrefixCI cs xs

def containsCIAux (needle : List Char) : List Char → Bool
  | [] => isPrefixCI needle []
  | x :: xs => isPrefixCI needle (x :: xs) || containsCIAux needle xs

def containsCI (needle hay : String) : Bool := containsCIAux needle.data hay.data

/-- Python slicing s[:n]: the first n characters. -/
def truncateStr (s : String) (n : Nat) : String := ⟨s.data.take n⟩

/-! ## HTML document trees

The scraper consumes BeautifulSoup's parse of the fetched page.  Parsing is
an external capability (lxml); the pipeline is embedded over the resulting
document tree directly. -/

inductive Node where
  | text (s : String)
  | elem (tag : String) (attrs : List (String × String)) (children : List Node)
deriving Repr

/- All text-node strings of a tree, in document (pre-)order.  This is the
string sequence BeautifulSoup's get_text walks. -/
mutual

def nodeTexts : Node → List String
  | .text s => [s]
  | .elem _ _ cs => nodeTextsL cs

def nodeTextsL : List Node → List String
  | [] => []
  | c :: cs => nodeTexts c ++ nodeTextsL cs

end

/-- BeautifulSoup soup.get_text() with default arguments: the concatenation
of every text node. -/
def allText (n : Node) : String := String.join (nodeTexts n)

/-- BeautifulSoup tag.get_text with a separator and strip=True: each text
fragment is stripped, empty fragments are dropped, and the rest are joined
with the separator. -/
def getTextStrip (sep : String) (n : Node) : String :=
  String.intercalate sep (((nodeTexts n).map pyStrip).filter (fun s => !(s == "")))

/- BeautifulSoup find: the first node in document order satisfying a
predicate on tag name and attributes (the soup root is a synthetic
"[document]" element which no predicate used here matches). -/
mutual

def findE (p : String → List (String × String) → Bool) : Node → Option Node
  | .text _ => none
  | .elem t a cs => if p t a then some (.elem t a cs) else findEL p cs

def findEL (p : String → List (String × String) → Bool) : List Node → Option Node
  | [] => none
  | c :: cs =>
    match findE p c with
    | some n => some n
    | none => findEL p cs

end

def findTag (t : String) (d : Node) : Option Node := findE (fun tg _ => tg == t) d

/- BeautifulSoup tag.decompose applied to every element whose tag is in the
given list: the element and its whole subtree disappear. -/
mutual

def removeTags (tags : List String) : Node → Node
  | .text s => .text s
  | .elem t a cs => .elem t a (removeTagsL tags cs)

def removeTagsL (tags : List String) : List Node → List Node
  | [] => []
  | c :: cs => removeTagsKeep tags c ++ removeTagsL tags cs

def removeTagsKeep (tags : List String) : Node → List Node
  | .text s => [.text s]
  | .elem t a cs => if tags.contains t then [] else [.elem t a (removeTagsL tags cs)]

end

/-- BeautifulSoup tag.string: the unique string descendant reached through
single children, or none when the tag is empty or has several children. -/
def nodeStr : Node → Option String
  | .text s => some s
  | .elem _ _ [c] => nodeStr c
  | .elem _ _ _ => none

example : nodeTexts (.elem "b" [] [.text "x", .text "y"]) = ["x", "y"] := rfl
example : pyStrip "  a b\n " = "a b" := rfl
example : pySplitSpace "Bearer a  b" = ["Bearer", "a", "", "b"] := rfl
example : containsCI "description" "Twitter:DESCRIPTION" = true := rfl
example : containsCI "description" "desc" = false := rfl

/-! ## A backtracking regex engine

Python's re module matches with leftmost position, left-first alternation,
and greedy (longest-first) repetition, backtracking into earlier choices
when a later part of the pattern fails.  The engine below implements those
semantics for the constructs appearing in the source's patterns: character
classes with counted repetition, literals (optionally case-insensitive for
re.I patterns), sequencing, alternation, greedy option, and one capturing
group (the phone pattern's optional country-code group). -/

inductive RE where
  | eps
  | cls (p : Char → Bool) (min : Nat) (max : Option Nat)
  | lit (s : List Char) (ci : Bool)
  | seq2 (a b : RE)
  | alt (a b : RE)
  | opt (r : RE)
  | grp (r : RE)

def reSeq (l : List RE) : RE := l.foldr .seq2 .eps

/-- Consume an exact number of class characters from the front. -/
def consumeMin (p : Char → Bool) : Nat → List Char → Option (List Char)
  | 0, s => some s
  | _ + 1, [] => none
  | n + 1, c :: s => if p c then consumeMin p n s else none

/-- Greedy extra repetitions: try consuming one more class character (up to
the fuel bound) before settling, exploring longest matches first. -/
def greedyExtra {σ : Type} (p : Char → Bool) :
    Nat → List Char → (List Char → Option σ) → Option σ
  | 0, s, k => k s
  | _ + 1, [], k => k []
  | fuel + 1, c :: rest, k =>
    if p c then
      match greedyExtra p fuel rest k with
      | some r => some r
      | none => k (c :: rest)
    else k (c :: rest)

/-- Match a literal (case-insensitively when ci is set) at the front. -/
def stripLit : List Char → Bool → List Char → Option (List Char)
  | [], _, s => some s
  | _ :: _, _, [] => none
  | c :: cs, ci, x :: xs =>
    if (if ci then c.toLower == x.toLower else c == x) then stripLit cs ci xs else none

/- The continuation-passing matcher.  The continuation receives the
remaining input and the current capture of group 1; backtracking is the
traversal of alternatives until the continuation chain first succeeds,
which reproduces Python's preference order. -/
def reMatch {σ : Type} :
    RE → List Char → Option (List Char) →
    (List Char → Option (List Char) → Option σ) → Option σ
  | .eps, s, g, k => k s g
  | .cls p mn mx, s, g, k =>
    match consumeMin p mn s with
    | none => none
    | some s1 =>
      greedyExtra p (match mx with | none => s1.length | some m => m - mn) s1
        (fun s2 => k s2 g)
  | .lit l ci, s, g, k =>
    match stripLit l ci s with
    | none => none
    | some s1 => k s1 g
  | .seq2 a b, s, g, k => reMatch a s g (fun s1 g1 => reMatch b s1 g1 k)
  | .alt a b, s, g, k =>
    match reMatch a s g k with
    | some r => some r
    | none => reMatch b s g k
  | .opt r, s, g, k =>
    match reMatch r s g k with
    | some r' => some r'
    | none => k s g
  | .grp r, s, g, k =>
    reMatch r s g (fun s1 _ => k s1 (some (s.take (s.length - s1.length))))

/-- Attempt a match anchored at the front: the length consumed by the first
(backtracking-preferred) full match, with the group-1 capture. -/
def matchHere (r : RE) (s : List Char) : Option (Nat × Option (List Char)) :=
  reMatch r s none (fun s' g => some (s.length - s'.length, g))

/- re.findall: scan positions left to right; at each match, record either
the whole match (patterns without groups) or group 1 (patterns with one
group, the unmatched group giving the empty string), and resume after it. -/
def findallAux (r : RE) (whole : Bool) : Nat → List Char → List String
  | 0, _ => []
  | fuel + 1, s =>
    match matchHere r s with
    | some (n, g) =>
      let item : String := if whole then ⟨s.take n⟩ else ⟨g.getD []⟩
      if n == 0 then
        match s with
        | [] => [item]
        | _ :: s' => item :: findallAux r whole fuel s'
      else item :: findallAux r whole fuel (s.drop n)
    | none =>
      match s with
      | [] => []
      | _ :: s' => findallAux r whole fuel s'

def findallWhole (r : RE) (s : String) : List String :=
  findallAux r true (s.data.length + 1) s.data

def findallGroup1 (r : RE) (s : String) : List String :=
  findallAux r false (s.data.length + 1) s.data

/-- re.search followed by .group(0): the text of the match at the leftmost
matching position, or none. -/
def searchAux (r : RE) : Nat → List Char → Option String
  | 0, _ => none
  | fuel + 1, s =>
    match matchHere r s with
    | some (n, _) => some ⟨s.take n⟩
    | none =>
      match s with
      | [] => none
      | _ :: s' => searchAux r fuel s'

def searchRE (r : RE) (s : String) : Option String :=
  searchAux r (s.data.length + 1) s.data

/-! ## The concrete patterns of processing/web_scraper.py -/

def emailLocalChar (c : Char) : Bool :=
  c.isAlpha || c.isDigit || c == '.' || c == '_' || c == '%' || c == '+' || c == '-'

def emailDomChar (c : Char) : Bool := c.isAlpha || c.isDigit || c == '.' || c == '-'

/-- The email pattern of line 61. -/
def reEmail : RE :=
  reSeq [.cls emailLocalChar 1 none, .lit ['@'] false, .cls emailDomChar 1 none,
         .lit ['.'] false, .cls Char.isAlpha 2 none]

def sepChar (c : Char) : Bool := pySpaceChar c || c == '.' || c == '-'

def oneOpt (p : Char → Bool) : RE := .cls p 0 (some 1)

/-- The phone pattern of line 66, with its capturing optional
country-code group. -/
def rePhone : RE :=
  reSeq [.opt (.grp (reSeq [oneOpt (· == '('), oneOpt (· == '+'),
           .cls Char.isDigit 1 (some 3), oneOpt (· == ')'), oneOpt sepChar])),
         oneOpt (· == '('), .cls Char.isDigit 3 (some 3), oneOpt (· == ')'),
         oneOpt sepChar, .cls Char.isDigit 3 (some 3), oneOpt sepChar,
         .cls Char.isDigit 4 (some 4)]

def litci (s : String) : RE := .lit s.data true

/-- The https?://(www.)? prefix prepended to every social pattern (line 78),
compiled with re.I. -/
def reUrlStart : RE :=
  reSeq [litci "http", oneOpt (fun c => c.toLower == 's'), .lit "://".data false,
         .opt (litci "www.")]

def handleLinkChar (c : Char) : Bool := c.isAlpha || c.isDigit || c == '_' || c == '-'
def handleTwChar (c : Char) : Bool := c.isAlpha || c.isDigit || c == '_'
def handleFbChar (c : Char) : Bool :=
  c.isAlpha || c.isDigit || c == '_' || c == '.' || c == '-'
def handleIgChar (c : Char) : Bool := c.isAlpha || c.isDigit || c == '_' || c == '.'

def reLinkedin : RE :=
  reSeq [reUrlStart, litci "linkedin.com/company/", .cls handleLinkChar 1 none]

def reTwitter : RE :=
  reSeq [reUrlStart, .alt (litci "twitter") (litci "x"), litci ".com/",
         .cls handleTwChar 1 none]

def reFacebook : RE :=
  reSeq [reUrlStart, litci "facebook.com/", .cls handleFbChar 1 none]

def reInstagram : RE :=
  reSeq [reUrlStart, litci "instagram.com/", .cls handleIgChar 1 none]

/-- re.sub of 3-or-more newlines by exactly two (line 53), as a run-length
state machine over the characters. -/
def nlRun (run : Nat) : List Char :=
  if run ≥ 3 then ['\n', '\n'] else List.replicate run '\n'

def squeezeNLAux : List Char → Nat → List Char
  | [], run => nlRun run
  | c :: rest, run =>
    if c == '\n' then squeezeNLAux rest (run + 1)
    else nlRun run ++ c :: squeezeNLAux rest 0

def squeezeNL (s : String) : String := ⟨squeezeNLAux s.data 0⟩

example : findallWhole reEmail "hi a@b.com a@b.com" = ["a@b.com", "a@b.com"] := rfl
example : findallGroup1 rePhone "Call 555-123-4567 now." = [""] := rfl
example : findallGroup1 rePhone "+1 555.123.4567" = ["+1 "] := rfl
example : searchRE reTwitter "see https://x.com/acme now" = some "https://x.com/acme" := rfl
example : searchRE reLinkedin "nothing here" = none := rfl
example : squeezeNL "a\n\nb\n\n\n\nc" = "a\n\nb\n\nc" := rfl

/-! ## The scraping pipeline (processing/web_scraper.py) -/

/-- Line 19. -/
def MAX_LLM_CONTENT_LENGTH : Nat := 16000

/-- The tags decomposed at lines 41-42. -/
def strippedTags : List String :=
  ["script", "style", "nav", "footer", "header", "aside", "form"]

def cleanDoc (d : Node) : Node := removeTags strippedTags d

/-- Line 35: soup.title.string.strip() if soup.title else ''.  When the
title element exists but its .string is None (empty or multi-child title),
the attribute access on None raises (AttributeError), modelled as error. -/
def extractTitle (d : Node) : Except Unit String :=
  match findTag "title" d with
  | none => .ok ""
  | some n =>
    match nodeStr n with
    | none => .error ()
    | some s => .ok (pyStrip s)

/-- The predicate of line 36: a meta element whose name attribute matches
re.compile('description', re.I), that is, contains "description"
case-insensitively. -/
def metaNamePred (tg : String) (a : List (String × String)) : Bool :=
  tg == "meta" &&
    (match a.lookup "name" with
     | some v => containsCI "description" v
     | none => false)

/-- Lines 36-37: content attribute of the first matching meta element,
stripped; empty string when the element or the attribute is absent. -/
def extractDescription (d : Node) : String :=
  match findE metaNamePred d with
  | some (.elem _ a _) => pyStrip ((a.lookup "content").getD "")
  | _ => ""

/-- The class attribute test of line 47: re.compile('content|main|post',
re.I) searched inside the class value. -/
def classAttrMatch (a : List (String × String)) : Bool :=
  match a.lookup "class" with
  | some v => containsCI "content" v || containsCI "main" v || containsCI "post" v
  | none => false

/-- Line 47: soup.find('div', class_=...): only div elements qualify. -/
def findDivContent (d : Node) : Option Node :=
  findE (fun tg a => tg == "div" && classAttrMatch a) d

/-- Whether a node is a div element whose class attribute matches the
content/main/post pattern. -/
def isDivWithClass : Node → Bool
  | .elem t a _ => t == "div" && classAttrMatch a
  | .text _ => false

/-- Lines 45-48: the or-chain selecting the main content element. -/
def selectContent (c : Node) : Option Node :=
  match findTag "main" c with
  | some n => some n
  | none =>
    match findTag "article" c with
    | some n => some n
    | none =>
      match findDivContent c with
      | some n => some n
      | none => findTag "body" c

/-- Lines 50-55: get_text over the selected element with newline separator
and stripping, then collapsing 3-or-more newlines; empty string when even
the body is absent. -/
def renderContent : Option Node → String
  | some t => squeezeNL (getTextStrip "\n" t)
  | none => ""

def mainContentOf (c : Node) : String := renderContent (selectContent c)

/-- Lines 77-80: one platform step of the social-link loop: keep the first
re.search match, skipping the platform if already present. -/
def addSocial (raw : String) (links : List (String × String))
    (platform : String) (r : RE) : List (String × String) :=
  match searchRE r raw with
  | some m => if (links.lookup platform).isNone then links ++ [(platform, m)] else links
  | none => links

/-- Lines 70-80: the social_links dict built over the four platforms in
insertion order, searching the raw response text. -/
def buildSocial (raw : String) : List (String × String) :=
  addSocial raw
    (addSocial raw
      (addSocial raw
        (addSocial raw [] "linkedin" reLinkedin)
        "twitter" reTwitter)
      "facebook" reFacebook)
    "instagram" reInstagram

structure ScrapedPage where
  url : String
  main_content : String
  title : String
  description : String
  emails : List String
  phones : List String
  social_links : List (String × String)
deriving Repr, DecidableEq

/- The two error messages raised at lines 98-103: fetchFailed is the
"Failed to fetch the URL" exception raised for httpx.RequestError
(transport failures), unexpectedFailure the "An unexpected error occurred
while processing" exception raised for every other exception, including
the httpx.HTTPStatusError of raise_for_status (which is not a
RequestError) and the AttributeError of line 35. -/
inductive ScrapeError where
  | fetchFailed
  | unexpectedFailure
deriving Repr, DecidableEq

/- The outcome of the single httpx GET of line 29: either the request
cannot complete (DNS, connection refused, timeout - httpx.RequestError),
or a response arrives with a status, a raw text and its parse. -/
inductive FetchOutcome where
  | failure
  | success (status : Nat) (raw : String) (doc : Node)

/-- response.raise_for_status() passes exactly on 2xx statuses. -/
def is2xx (status : Nat) : Bool := 200 ≤ status && status < 300

/-- Lines 21-103: the whole pipeline on the outcome of the one fetch.
Order of effects in the source: raise_for_status, parse, metadata (title
may raise), decompose, content selection and cleaning, contact extraction
from the post-decompose text, social links from the raw text, truncation. -/
def scrape_homepage_content (url : String) (outcome : FetchOutcome) :
    Except ScrapeError ScrapedPage :=
  match outcome with
  | .failure => .error .fetchFailed
  | .success status raw doc =>
    if is2xx status then
      match extractTitle doc with
      | .error _ => .error .unexpectedFailure
      | .ok title =>
        .ok { url := url,
              main_content :=
                truncateStr (mainContentOf (cleanDoc doc)) MAX_LLM_CONTENT_LENGTH,
              title := title,
              description := extractDescription doc,
              emails := (findallWhole reEmail (allText (cleanDoc doc))).dedup,
              phones := (findallGroup1 rePhone (allText (cleanDoc doc))).dedup,
              social_links := buildSocial raw }
    else .error .unexpectedFailure

/-! ## The API-key dependency (utils/security.py) -/

/-- Lines 27-64: get_api_key over the configured secret and the optional
Authorization header value; errors carry the HTTP status 401.  The Python
index [1] into the split cannot fail after the prefix check (the header
contains a space), so total indexing with default is faithful. -/
def get_api_key (secret : String) (header : Option String) : Except Nat String :=
  match header with
  | none => .error 401
  | some k =>
    if k == "" then .error 401
    else if !(strStarts "Bearer " k) then .error 401
    else
      let token := (pySplitSpace k).getD 1 ""
      if token == secret then .ok token else .error 401

/-! ## The empty-content gate of the endpoints (agent_server.py) -/

/-- Lines 104-109 (and 146-151): after a successful scrape, the endpoint
raises a 404 when main_content is falsy or strips to nothing, before any
call into the analysis layer; ok means analysis proceeds. -/
def analyze_gate (page : ScrapedPage) : Except Nat Unit :=
  if page.main_content == "" || pyStrip page.main_content == "" then .error 404
  else .ok ()

/-! ## Helper lemmas -/

/-- Inversion of a successful scrape: how each field of the returned page
is computed. -/
theorem scrape_ok_fields (url : String) (s : Nat) (raw : String) (doc : Node)
    (page : ScrapedPage)
    (h : scrape_homepage_content url (.success s raw doc) = .ok page) :
    page.main_content = truncateStr (mainContentOf (cleanDoc doc)) MAX_LLM_CONTENT_LENGTH ∧
    page.emails = (findallWhole reEmail (allText (cleanDoc doc))).dedup ∧
    page.phones = (findallGroup1 rePhone (allText (cleanDoc doc))).dedup ∧
    page.social_links = buildSocial raw := by
  simp only [scrape_homepage_content] at h
  split at h
  · split at h
    · exact absurd h (by simp)
    · rw [Except.ok.injEq] at h
      subst h
      exact ⟨rfl, rfl, rfl, rfl⟩
  · exact absurd h (by simp)

mutual

theorem findE_sat (p : String → List (String × String) → Bool) :
    ∀ (d : Node) (n : Node), findE p d = some n →
      ∃ t a cs, n = Node.elem t a cs ∧ p t a = true
  | .text _, _, h => by simp [findE] at h
  | .elem t a cs, n, h => by
    unfold findE at h
    by_cases hp : p t a = true
    · rw [if_pos hp, Option.some.injEq] at h
      exact ⟨t, a, cs, h.symm, hp⟩
    · rw [if_neg hp] at h
      exact findEL_sat p cs n h

theorem findEL_sat (p : String → List (String × String) → Bool) :
    ∀ (l : List Node) (n : Node), findEL p l = some n →
      ∃ t a cs, n = Node.elem t a cs ∧ p t a = true
  | [], _, h => by simp [findEL] at h
  | c :: cs, n, h => by
    unfold findEL at h
    cases hc : findE p c with
    | some m =>
      rw [hc, Option.some.injEq] at h
      exact h ▸ findE_sat p c m hc
    | none =>
      rw [hc] at h
      exact findEL_sat p cs n h

end

/-- When every fragment strips to nothing, the strip-and-filter pass of
get_text keeps nothing. -/
theorem filter_strip_all_empty (l : List String) (h : ∀ x ∈ l, pyStrip x = "") :
    (l.map pyStrip).filter (fun s => !(s == "")) = [] := by
  induction l with
  | nil => rfl
  | cons a l ih =>
    simp only [List.map_cons, List.filter_cons, h a (List.mem_cons_self a l)]
    simp only [show ((!("" : String) == "")) = false from rfl, if_false]
    exact ih (fun x hx => h x (List.mem_cons_of_mem a hx))

/-- The social-link dictionary: distinct keys, and each platform maps to
exactly the first search match over the raw text, absent when none. -/
theorem buildSocial_lookup (raw : String) :
    ((buildSocial raw).map Prod.fst).Nodup ∧
    (buildSocial raw).lookup "linkedin" = searchRE reLinkedin raw ∧
    (buildSocial raw).lookup "twitter" = searchRE reTwitter raw ∧
    (buildSocial raw).lookup "facebook" = searchRE reFacebook raw ∧
    (buildSocial raw).lookup "instagram" = searchRE reInstagram raw := by
  unfold buildSocial addSocial
  cases h1 : searchRE reLinkedin raw <;> cases h2 : searchRE reTwitter raw <;>
    cases h3 : searchRE reFacebook raw <;> cases h4 : searchRE reInstagram raw <;>
    simp [List.lookup, List.map]

/-! ## Concrete documents and pages used by the claim theorems -/

/-- A parsed page whose body text holds exactly one 3-3-4 phone number. -/
def phoneDoc : Node :=
  .elem "[document]" []
    [.elem "html" [] [.elem "body" [] [.text "Call 555-123-4567 now."]]]

/-- A parsed page whose only email address sits inside a nav element. -/
def navEmailDoc : Node :=
  .elem "[document]" []
    [.elem "html" [] [.elem "body" []
      [.elem "nav" [] [.text "reach us: a@b.com "], .text "welcome"]]]

/-- A parsed page with an email in the body, twice. -/
def dupEmailDoc : Node :=
  .elem "[document]" []
    [.elem "html" [] [.elem "body" [] [.text "hi a@b.com a@b.com"]]]

/-- The raw HTML paired with dupEmailDoc: it carries two twitter-platform
URLs and nothing else. -/
def dupEmailRaw : String := "see https://x.com/acme and https://x.com/other"

/-- The page the pipeline produces for dupEmailDoc with dupEmailRaw. -/
def dupEmailPage : ScrapedPage :=
  { url := "u", main_content := "hi a@b.com a@b.com", title := "", description := "",
    emails := ["a@b.com"], phones := [],
    social_links := [("twitter", "https://x.com/acme")] }

/-- A parsed page whose only class-matching element is a section, with
extra body text outside it. -/
def sectionDoc : Node :=
  .elem "[document]" []
    [.elem "html" [] [.elem "body" []
      [.text "B", .elem "section" [("class", "content")] [.text "S"]]]]

/-- A parsed page whose only class-matching element is a div. -/
def divDoc : Node :=
  .elem "[document]" []
    [.elem "html" [] [.elem "body" []
      [.text "B", .elem "div" [("class", "Post-body")] [.text "S"]]]]

/-- The page the pipeline produces for divDoc. -/
def divPage : ScrapedPage :=
  { url := "u", main_content := "S", title := "", description := "",
    emails := [], phones := [], social_links := [] }

/-- A parsed page whose title element is present but empty. -/
def emptyTitleDoc : Node :=
  .elem "[document]" []
    [.elem "html" [] [.elem "head" [] [.elem "title" [] []],
      .elem "body" [] [.text "hi"]]]

/-- A parsed page with a padded title. -/
def titledDoc : Node :=
  .elem "[document]" []
    [.elem "html" [] [.elem "head" [] [.elem "title" [] [.text " Acme Co "]],
      .elem "body" [] [.text "hi"]]]

/-- A parsed page with no title element at all. -/
def noTitleDoc : Node :=
  .elem "[document]" [] [.elem "html" [] [.elem "body" [] [.text "hi"]]]

/-- The empty parse: no body at all. -/
def trivDoc : Node := .elem "[document]" [] []

/-- The page the pipeline produces for trivDoc. -/
def trivPage : ScrapedPage :=
  { url := "u", main_content := "", title := "", description := "",
    emails := [], phones := [], social_links := [] }

/-- A parsed page with a whitespace-string title and a whitespace-only body. -/
def wsDoc : Node :=
  .elem "[document]" []
    [.elem "html" [] [.elem "head" [] [.elem "title" [] [.text "  "]],
      .elem "body" [] [.text "  \n "]]]

/-- The body element of wsDoc as selected by the content heuristic. -/
def wsBody : Node := .elem "body" [] [.text "  \n "]

/-- A parsed page with an empty title element and a whitespace-only body. -/
def emptyTitleWsDoc : Node :=
  .elem "[document]" []
    [.elem "html" [] [.elem "head" [] [.elem "title" [] []],
      .elem "body" [] [.text "   "]]]

/-- A two-meta head, with symbolic name and content attributes. -/
def metaDoc (n1 c1 n2 c2 : String) : Node :=
  .elem "[document]" []
    [.elem "html" [] [.elem "head" []
      [.elem "meta" [("name", n1), ("content", c1)] [],
       .elem "meta" [("name", n2), ("content", c2)] []]]]

/-! ## Claim theorems -/

/-- C1: the claim says the phones field collects the phone-number
substrings of the text.  The source pattern contains a capturing group
(the optional country-code prefix), and Python's re.findall on a pattern
with exactly one group returns that group, not the whole match; so a text
containing exactly the phone number 555-123-4567 yields the list with one
empty string (the unmatched optional group), never the number itself. -/
theorem c1_phones_capture_group :
    (scrape_homepage_content "u" (.success 200 "" phoneDoc)).map ScrapedPage.phones
      = .ok [""] ∧
    (([""] : List String) ≠ ["555-123-4567"]) :=
  ⟨rfl, by decide⟩

/-- C2 counterexample: the email a@b.com occurs in the document's full raw
text (it is the one email-pattern match there), yet it sits inside a nav
element, which is decomposed before the contact-information scan, so the
resulting page's emails list is empty. -/
theorem c2_cex_nav_email_lost :
    findallWhole reEmail (allText navEmailDoc) = ["a@b.com"] ∧
    (scrape_homepage_content "u" (.success 200 "" navEmailDoc)).map ScrapedPage.emails
      = .ok [] :=
  ⟨rfl, rfl⟩

/-- C2 amended: email extraction operates on the document text after the
cleaner has removed script, style, nav, footer, header, aside and form
elements; every email-pattern match in that post-cleaning text appears in
the emails field. -/
theorem c2_emails_from_cleaned_text (url raw : String) (s : Nat) (doc : Node)
    (page : ScrapedPage)
    (h : scrape_homepage_content url (.success s raw doc) = .ok page)
    (m : String) (hm : m ∈ findallWhole reEmail (allText (cleanDoc doc))) :
    m ∈ page.emails := by
  rw [(scrape_ok_fields url s raw doc page h).2.1]
  exact List.mem_dedup.mpr hm

/-- C2 amended, witnessed at a page whose body holds an email. -/
theorem c2_emails_witness : "a@b.com" ∈ dupEmailPage.emails :=
  c2_emails_from_cleaned_text "u" dupEmailRaw 200 dupEmailDoc dupEmailPage rfl
    "a@b.com" (by decide)

/-- C3 counterexample: in a document with no main and no article whose
only class-matching element is a section with class "content", the whole
body (text "B" followed by the section's "S") is selected, not the
section (whose rendering would be just "S"). -/
theorem c3_cex_section_not_selected :
    (scrape_homepage_content "u" (.success 200 "" sectionDoc)).map
      ScrapedPage.main_content = .ok "B\nS" ∧
    (("B\nS" : String) ≠ "S") :=
  ⟨rfl, by decide⟩

/-- C3 amended: the main-content selection tries a main element, then an
article element, then a div (and only a div) whose class attribute
contains content, main or post case-insensitively, then the whole body;
class-matching elements of any other tag kind are passed over. -/
theorem c3_class_fallback_div_only (url raw : String) (s : Nat) (doc : Node)
    (page : ScrapedPage)
    (h : scrape_homepage_content url (.success s raw doc) = .ok page)
    (hm : findTag "main" (cleanDoc doc) = none)
    (ha : findTag "article" (cleanDoc doc) = none) :
    (∀ n, findDivContent (cleanDoc doc) = some n → isDivWithClass n = true) ∧
    (findDivContent (cleanDoc doc) = none →
      page.main_content =
        truncateStr (renderContent (findTag "body" (cleanDoc doc)))
          MAX_LLM_CONTENT_LENGTH) := by
  constructor
  · intro n hn
    obtain ⟨t, a, cs, rfl, hp⟩ := findE_sat _ _ n hn
    exact hp
  · intro hd
    rw [(scrape_ok_fields url s raw doc page h).1]
    unfold mainContentOf selectContent
    rw [hm, ha, hd]

/-- C3 amended, witnessed on a page whose class-matching element is a div:
the element the class fallback finds is a div with a matching class. -/
theorem c3_class_fallback_witness :
    isDivWithClass (Node.elem "div" [("class", "Post-body")] [Node.text "S"]) = true :=
  (c3_class_fallback_div_only "u" "" 200 divDoc divPage rfl rfl rfl).1
    (Node.elem "div" [("class", "Post-body")] [Node.text "S"]) rfl

/-- C4: a transport failure of the single GET aborts with the
"failed to fetch" error, but a 4xx response status does not: the
raise_for_status exception (httpx.HTTPStatusError) is not an
httpx.RequestError, so it falls to the generic handler and the pipeline
aborts with the generic unexpected-processing error instead.  In both
cases the result is an error: no partial page exists. -/
theorem c4_status_error_is_generic :
    scrape_homepage_content "u" .failure = .error .fetchFailed ∧
    scrape_homepage_content "u" (.success 404 "" trivDoc)
      = .error .unexpectedFailure ∧
    ScrapeError.unexpectedFailure ≠ ScrapeError.fetchFailed :=
  ⟨rfl, rfl, by decide⟩

/-- C5 counterexample: the header "Bearer s3cret extra" is not exactly
"Bearer " followed by the secret s3cret, yet the check accepts it: the
code compares only the second space-separated field of the header. -/
theorem c5_cex_trailing_content_accepted :
    get_api_key "s3cret" (some "Bearer s3cret extra") = .ok "s3cret" ∧
    ("Bearer s3cret extra" : String) ≠ "Bearer " ++ "s3cret" :=
  ⟨rfl, by decide⟩

/-- C5 amended: the check succeeds exactly when the header is present,
starts with "Bearer ", and its second space-separated field equals the
configured secret (content after a further space is ignored); every
failure is reported with status 401. -/
theorem c5_second_field_decides (secret : String) (header : Option String) :
    (get_api_key secret header = .ok secret ∨
     get_api_key secret header = .error 401) ∧
    (get_api_key secret header = .ok secret ↔
      ∃ k, header = some k ∧ strStarts "Bearer " k = true ∧
        (pySplitSpace k).getD 1 "" = secret) := by
  cases header with
  | none =>
    refine ⟨Or.inr rfl, ?_⟩
    simp [get_api_key]
  | some k =>
    by_cases he : (k == "") = true
    · have hk : k = "" := eq_of_beq he
      subst hk
      refine ⟨Or.inr rfl, ?_⟩
      constructor
      · intro hcon
        exact absurd hcon (by simp [get_api_key])
      · rintro ⟨k', hk', hpre, -⟩
        rw [Option.some.injEq] at hk'
        subst hk'
        exact absurd hpre (by decide)
    · by_cases hpre : strStarts "Bearer " k = true
      · have hnot : (!strStarts "Bearer " k) = false := by rw [hpre]; rfl
        by_cases htok : ((pySplitSpace k).getD 1 "" == secret) = true
        · have htv : (pySplitSpace k).getD 1 "" = secret := eq_of_beq htok
          have hv : get_api_key secret (some k) = .ok secret := by
            simp only [get_api_key]
            rw [if_neg he, hnot, if_neg (show ¬false = true by decide), if_pos htok, htv]
          refine ⟨Or.inl hv, ?_⟩
          rw [hv]
          exact ⟨fun _ => ⟨k, rfl, hpre, htv⟩, fun _ => rfl⟩
        · have hv : get_api_key secret (some k) = .error 401 := by
            simp only [get_api_key]
            rw [if_neg he, hnot, if_neg (show ¬false = true by decide), if_neg htok]
          refine ⟨Or.inr hv, ?_⟩
          rw [hv]
          constructor
          · intro hcon
            exact absurd hcon (by simp)
          · rintro ⟨k', hk', -, htv⟩
            rw [Option.some.injEq] at hk'
            subst hk'
            exact absurd (beq_iff_eq.mpr htv) htok
      · have hpre' : strStarts "Bearer " k = false := by
          revert hpre; cases strStarts "Bearer " k <;> simp
        have hv : get_api_key secret (some k) = .error 401 := by
          simp only [get_api_key]
          rw [if_neg he, hpre']
          rw [if_pos (show (!false) = true from rfl)]
        refine ⟨Or.inr hv, ?_⟩
        rw [hv]
        constructor
        · intro hcon
          exact absurd hcon (by simp)
        · rintro ⟨k', hk', hpre'', -⟩
          rw [Option.some.injEq] at hk'
          subst hk'
          exact absurd hpre'' hpre

/-- C6: metadata extraction is not total: on a document whose title
element is present but empty, soup.title.string is None and the .strip()
call raises, so the whole scrape aborts with the generic error instead of
returning a page with an empty title.  With an absent title the extraction
does return the empty string, and a padded title is trimmed. -/
theorem c6_empty_title_crashes :
    scrape_homepage_content "u" (.success 200 "" emptyTitleDoc)
      = .error .unexpectedFailure ∧
    (scrape_homepage_content "u" (.success 200 "" titledDoc)).map ScrapedPage.title
      = .ok "Acme Co" ∧
    (scrape_homepage_content "u" (.success 200 "" noTitleDoc)).map ScrapedPage.title
      = .ok "" :=
  ⟨rfl, rfl, rfl⟩

/-- C7: every page the pipeline returns has a main_content of at most
MAX_LLM_CONTENT_LENGTH = 16000 characters, the hard slice applied after
cleaning and newline normalization. -/
theorem c7_main_content_bounded (url : String) (oc : FetchOutcome) (page : ScrapedPage)
    (h : scrape_homepage_content url oc = .ok page) :
    page.main_content.length ≤ MAX_LLM_CONTENT_LENGTH := by
  cases oc with
  | failure => simp [scrape_homepage_content] at h
  | success s raw doc =>
    rw [(scrape_ok_fields url s raw doc page h).1]
    have hlen : (truncateStr (mainContentOf (cleanDoc doc)) MAX_LLM_CONTENT_LENGTH).length
        = ((mainContentOf (cleanDoc doc)).data.take MAX_LLM_CONTENT_LENGTH).length := rfl
    rw [hlen, List.length_take]
    exact Nat.min_le_left _ _

/-- C7, witnessed at a concrete page. -/
theorem c7_witness : trivPage.main_content.length ≤ MAX_LLM_CONTENT_LENGTH :=
  c7_main_content_bounded "u" (.success 200 "" trivDoc) trivPage rfl

/-- C8: every page the pipeline returns has duplicate-free emails and
phones (list(set(..)) of the findall results), and its social_links
dictionary has one entry per platform at most, holding exactly the first
re.search match of that platform's pattern over the raw HTML, with the
key absent when there is no match. -/
theorem c8_dedup_and_social_invariants (url raw : String) (s : Nat) (doc : Node)
    (page : ScrapedPage)
    (h : scrape_homepage_content url (.success s raw doc) = .ok page) :
    page.emails.Nodup ∧ page.phones.Nodup ∧
    (page.social_links.map Prod.fst).Nodup ∧
    page.social_links.lookup "linkedin" = searchRE reLinkedin raw ∧
    page.social_links.lookup "twitter" = searchRE reTwitter raw ∧
    page.social_links.lookup "facebook" = searchRE reFacebook raw ∧
    page.social_links.lookup "instagram" = searchRE reInstagram raw := by
  obtain ⟨-, he, hp, hs'⟩ := scrape_ok_fields url s raw doc page h
  rw [he, hp, hs']
  exact ⟨List.nodup_dedup _, List.nodup_dedup _, (buildSocial_lookup raw).1,
         (buildSocial_lookup raw).2.1, (buildSocial_lookup raw).2.2.1,
         (buildSocial_lookup raw).2.2.2.1, (buildSocial_lookup raw).2.2.2.2⟩

/-- C8, witnessed at a page built from a body with a repeated email and a
raw text holding two twitter URLs. -/
theorem c8_witness :
    dupEmailPage.emails.Nodup ∧ dupEmailPage.phones.Nodup ∧
    (dupEmailPage.social_links.map Prod.fst).Nodup ∧
    dupEmailPage.social_links.lookup "linkedin" = searchRE reLinkedin dupEmailRaw ∧
    dupEmailPage.social_links.lookup "twitter" = searchRE reTwitter dupEmailRaw ∧
    dupEmailPage.social_links.lookup "facebook" = searchRE reFacebook dupEmailRaw ∧
    dupEmailPage.social_links.lookup "instagram" = searchRE reInstagram dupEmailRaw :=
  c8_dedup_and_social_invariants "u" dupEmailRaw 200 dupEmailDoc dupEmailPage rfl

/-- C9 counterexample: a document whose body yields only whitespace after
cleaning, but whose (empty) title element makes the title extraction
raise: the scraper aborts with an error, returning no ScrapedPage at
all, while the claim promises a page with empty main content. -/
theorem c9_cex_title_crash :
    scrape_homepage_content "u" (.success 200 "" emptyTitleWsDoc)
      = .error .unexpectedFailure ∧
    ((nodeTexts (cleanDoc emptyTitleWsDoc)).map pyStrip).all (fun x => x == "") = true :=
  ⟨rfl, rfl⟩

/-- C9 amended: when the fetch succeeds, title extraction does not raise
(title absent or with direct string content), and the selected
main-content element (falling back to the body) carries only whitespace
text after cleaning, the scraper returns a page with empty main_content,
and the consuming endpoints fail with a 404 before reaching the analysis
layer. -/
theorem c9_ws_content_gives_404 (url raw : String) (s : Nat) (doc : Node) (t : String)
    (hs : is2xx s = true)
    (ht : extractTitle doc = .ok t)
    (hw : ∀ n, selectContent (cleanDoc doc) = some n → ∀ x ∈ nodeTexts n, pyStrip x = "") :
    (scrape_homepage_content url (.success s raw doc)).map ScrapedPage.main_content
      = .ok "" ∧
    (scrape_homepage_content url (.success s raw doc)).map analyze_gate
      = .ok (.error 404) := by
  have hmc : mainContentOf (cleanDoc doc) = "" := by
    unfold mainContentOf renderContent
    cases hsel : selectContent (cleanDoc doc) with
    | none => rfl
    | some n =>
      have hts : getTextStrip "\n" n = "" := by
        unfold getTextStrip
        rw [filter_strip_all_empty (nodeTexts n) (hw n hsel)]
        rfl
      show squeezeNL (getTextStrip "\n" n) = ""
      rw [hts]
      rfl
  have hrun : scrape_homepage_content url (.success s raw doc)
      = .ok { url := url, main_content := "", title := t,
              description := extractDescription doc,
              emails := (findallWhole reEmail (allText (cleanDoc doc))).dedup,
              phones := (findallGroup1 rePhone (allText (cleanDoc doc))).dedup,
              social_links := buildSocial raw } := by
    simp only [scrape_homepage_content, hs, if_true, ht]
    rw [hmc]
    rfl
  rw [hrun]
  exact ⟨rfl, rfl⟩

/-- C9 amended, witnessed at a whitespace-only page. -/
theorem c9_witness :
    (scrape_homepage_content "u" (.success 200 "" wsDoc)).map ScrapedPage.main_content
      = .ok "" ∧
    (scrape_homepage_content "u" (.success 200 "" wsDoc)).map analyze_gate
      = .ok (.error 404) :=
  c9_ws_content_gives_404 "u" "" 200 wsDoc "" rfl rfl (by
    intro n hn x hx
    rw [show selectContent (cleanDoc wsDoc) = some wsBody from rfl,
        Option.some.injEq] at hn
    subst hn
    rw [show nodeTexts wsBody = ["  \n "] from rfl, List.mem_singleton] at hx
    subst hx
    rfl)

/-- C10: the meta-description lookup qualifies any meta element whose name
attribute contains "description" as a case-insensitive substring (so
name="twitter:description" qualifies), uses the first such element in
document order, and strips the returned content value. -/
theorem c10_meta_description_substring (n1 c1 n2 c2 : String) :
    extractDescription (metaDoc n1 c1 n2 c2) =
      (if containsCI "description" n1 = true then pyStrip c1
       else if containsCI "description" n2 = true then pyStrip c2 else "") ∧
    extractDescription (metaDoc "twitter:description" " A " "description" "B") = "A" := by
  constructor
  · by_cases h1 : containsCI "description" n1 = true
    · rw [if_pos h1]
      unfold extractDescription
      rw [show findE metaNamePred (metaDoc n1 c1 n2 c2)
          = some (Node.elem "meta" [("name", n1), ("content", c1)] []) from by
        simp [metaDoc, findE, findEL, metaNamePred, List.lookup, h1]]
      simp [List.lookup]
    · rw [if_neg h1]
      by_cases h2 : containsCI "description" n2 = true
      · rw [if_pos h2]
        unfold extractDescription
        rw [show findE metaNamePred (metaDoc n1 c1 n2 c2)
            = some (Node.elem "meta" [("name", n2), ("content", c2)] []) from by
          simp [metaDoc, findE, findEL, metaNamePred, List.lookup, h1, h2]]
        simp [List.lookup]
      · rw [if_neg h2]
        unfold extractDescription
        rw [show findE metaNamePred (metaDoc n1 c1 n2 c2) = none from by
          simp [metaDoc, findE, findEL, metaNamePred, List.lookup, h1, h2]]
  · rfl
